import Mathlib

/-!
# Verification of the round-trip walking-route planner

A shallow embedding of the repository's core logic, with theorems checking the
design document's claims against it.

Sources embedded:
* `src/lib/types.ts` — point sampling inside a polygon (`generateRandomPointsInPolygon`),
  unit conversions (`kmToMiles`, `metersToFeet`), elevation estimate
  (`estimateElevationDifference`).
* `src/lib/mapbox-api.ts` — `getDirections` (coordinate-sequence construction and
  error behaviour).
* `src/components/map-component.tsx` — `filterRoutesByDuration`, the selection
  branches of `generateRoutes`, and the state updates `generateRoutes` performs
  on the UI session.

Modelling conventions: JavaScript numbers are modelled as `ℚ` (the claims under
check compare and combine values with `*`, `/`, `≤`, `max`, `Math.floor`, all of
which are exact on the concrete inputs involved); `Math.random()` is modelled as
an ambient stream `ℕ → ℚ × ℚ` of per-iteration draws in `[0,1) × [0,1)`; the
source's unbounded `while` loop is modelled with explicit fuel, where `none`
means the loop has not terminated within the given number of iterations;
`async` functions that can `throw` are modelled as `Except String`-valued
functions taking the outcomes of their provider calls as arguments.
-/

/-- A geographic coordinate `[lng, lat]`, as the source's `[number, number]`. -/
abbrev Coord : Type := ℚ × ℚ

/-- A linear ring of a GeoJSON polygon: a list of coordinates (closed rings
repeat the first coordinate at the end). -/
abbrev LinearRing : Type := List Coord

/-- The `coordinates` member of a GeoJSON `Polygon`: the outer ring followed by
any hole rings. -/
abbrev PolygonG : Type := List LinearRing

/-- An axis-aligned bounding box, as turf's `bbox` array
`[minX, minY, maxX, maxY]` (`[west, south, east, north]`). -/
structure BBox where
  minX : ℚ
  minY : ℚ
  maxX : ℚ
  maxY : ℚ
deriving DecidableEq

/-- turf's `bbox` of a polygon: the componentwise min/max over every position of
every ring.  The source only applies it to non-empty polygons; the all-zero box
for the empty coordinate list is an unreachable default. -/
def bboxOfPolygon (polygon : PolygonG) : BBox :=
  match polygon.flatten with
  | [] => ⟨0, 0, 0, 0⟩
  | p :: rest =>
    rest.foldl
      (fun bb q => ⟨min bb.minX q.1, min bb.minY q.2, max bb.maxX q.1, max bb.maxY q.2⟩)
      ⟨p.1, p.2, p.1, p.2⟩

/-- The boundary test of turf's `inRing` for one edge `(vi, vj)`:
`py*(xi-xj) + yi*(xj-px) + yj*(px-xi) === 0 &&
 (xi-px)*(xj-px) <= 0 && (yi-py)*(yj-py) <= 0`. -/
def onSegment (pt : Coord) (e : Coord × Coord) : Bool :=
  let (px, py) := pt
  let (xi, yi) := e.1
  let (xj, yj) := e.2
  decide (py * (xi - xj) + yi * (xj - px) + yj * (px - xi) = 0 ∧
    (xi - px) * (xj - px) ≤ 0 ∧ (yi - py) * (yj - py) ≤ 0)

/-- The ray-crossing test of turf's `inRing` for one edge `(vi, vj)`:
`(yi > py) !== (yj > py) && px < ((xj-xi) * (py-yi)) / (yj-yi) + xi`.
When `yi = yj` the first conjunct is false, so (as in JavaScript's
short-circuit `&&`) the division is never semantically consulted; `ℚ`'s total
division by zero therefore does not change the value. -/
def rayCrosses (pt : Coord) (e : Coord × Coord) : Bool :=
  let (px, py) := pt
  let (xi, yi) := e.1
  let (xj, yj) := e.2
  (decide (yi > py) != decide (yj > py)) &&
    decide (px < (xj - xi) * (py - yi) / (yj - yi) + xi)

/-- The edge sequence traversed by turf's `inRing` loop
(`for i = 0, j = len-1; i < len; j = i++`): pairs `(r[0], r[len-1]),
(r[1], r[0]), …, (r[len-1], r[len-2])`. -/
def ringEdges (r : LinearRing) : List (Coord × Coord) :=
  match r.getLast? with
  | none => []
  | some lastV => r.zip (lastV :: r.dropLast)

/-- The body of turf's `inRing` loop: an immediate `!ignoreBoundary` result when
an edge's boundary test fires, otherwise the crossing parity is accumulated. -/
def inRingScan (pt : Coord) (ignoreBoundary : Bool) :
    List (Coord × Coord) → Bool → Bool
  | [], isInside => isInside
  | e :: es, isInside =>
    if onSegment pt e then !ignoreBoundary
    else inRingScan pt ignoreBoundary es (isInside != rayCrosses pt e)

/-- turf's `inRing`: a closed ring (first coordinate equal to the last) is first
unclosed by dropping the repeated final coordinate. -/
def inRing (pt : Coord) (ring : LinearRing) (ignoreBoundary : Bool) : Bool :=
  let r := if ring.head? = ring.getLast? then ring.dropLast else ring
  inRingScan pt ignoreBoundary (ringEdges r) false

/-- turf's `booleanPointInPolygon` for a GeoJSON `Polygon` (no `bbox` member is
present on the polygons the source builds, so the bbox pre-check is skipped):
inside the outer ring and not inside any hole, holes being tested with the
boundary convention flipped.  The source calls this with the default
`ignoreBoundary = false`, under which boundary points count as inside. -/
def booleanPointInPolygon (pt : Coord) (polygon : PolygonG)
    (ignoreBoundary : Bool) : Bool :=
  match polygon with
  | [] => false
  | outer :: holes =>
    inRing pt outer ignoreBoundary && !(holes.any fun h => inRing pt h (!ignoreBoundary))

/-- One random draw of the sampler's loop body:
`lng = bbox[0] + rand * (bbox[2] - bbox[0])`,
`lat = bbox[1] + rand * (bbox[3] - bbox[1])`. -/
def drawPoint (bb : BBox) (uv : ℚ × ℚ) : Coord :=
  (bb.minX + uv.1 * (bb.maxX - bb.minX), bb.minY + uv.2 * (bb.maxY - bb.minY))

/-- The `while (points.length < count)` rejection loop of
`generateRandomPointsInPolygon` (src/lib/types.ts lines 45–55), with explicit
fuel: `none` means the loop is still running after `fuel` iterations (the
source enforces no iteration bound).  `iter` indexes the random stream;
accepted points are appended in acceptance order, as the source's `push`. -/
def sampleLoop (polygon : PolygonG) (bb : BBox) (count : ℕ) (rands : ℕ → ℚ × ℚ) :
    ℕ → List Coord → ℕ → Option (List Coord)
  | _iter, points, 0 =>
    if count ≤ points.length then some points else none
  | iter, points, fuel + 1 =>
    if count ≤ points.length then some points
    else
      let point := drawPoint bb (rands iter)
      sampleLoop polygon bb count rands (iter + 1)
        (if booleanPointInPolygon point polygon false then points ++ [point] else points)
        fuel

/-- `generateRandomPointsInPolygon` (src/lib/types.ts lines 40–58): bounding box
of the polygon, then rejection sampling with turf's boundary-inclusive
containment test. -/
def generateRandomPointsInPolygon (polygon : PolygonG) (count : ℕ)
    (rands : ℕ → ℚ × ℚ) (fuel : ℕ) : Option (List Coord) :=
  sampleLoop polygon (bboxOfPolygon polygon) count rands 0 [] fuel

/-- `kmToMiles` (src/lib/types.ts): kilometres to miles. -/
def kmToMiles (km : ℚ) : ℚ := km * 0.621371

/-- `metersToFeet` (src/lib/types.ts): metres to feet. -/
def metersToFeet (meters : ℚ) : ℚ := meters * 3.28084

/-- `estimateElevationDifference` (src/lib/types.ts): crude 10 m of elevation
change per kilometre of route distance. -/
def estimateElevationDifference (distanceInMeters : ℚ) : ℚ :=
  distanceInMeters / 1000 * 10

/-- Modelled from the spec: `milesToKm`, the inverse conversion named by the
spec's idempotence-of-conversion property, is absent from src (which only has
`kmToMiles`, the multiplication by `0.621371`); modelled as the exact inverse,
division by the same constant. -/
def milesToKm (miles : ℚ) : ℚ := miles / 0.621371

/-- Modelled from the spec: `feetToMeters`, the inverse named by the spec's
"same for feet/meters" clause, is absent from src (which only has
`metersToFeet`, the multiplication by `3.28084`); modelled as the exact
inverse, division by the same constant. -/
def feetToMeters (feet : ℚ) : ℚ := feet / 3.28084

/-- A route object of the directions response JSON (`data.routes[i]`): distance
in metres, duration in seconds, and the `geometry.coordinates` path. -/
structure ApiRoute where
  distance : ℚ
  duration : ℚ
  coordinates : List Coord
deriving DecidableEq

/-- The observable outcome of one `fetch` of the directions endpoint, merging
the HTTP envelope (`response.ok`, `response.status`, `response.statusText`, the
body text read on failure) with the parsed JSON body (`data.routes`, `none`
when the `routes` member is absent). -/
structure DirApiResponse where
  ok : Bool
  status : ℕ
  statusText : String
  bodyText : String
  routes : Option (List ApiRoute)
deriving DecidableEq

/-- The coordinate sequence `getDirections` (src/lib/mapbox-api.ts lines 29–34)
submits to the routing provider: start, then every waypoint in order, then
start again. -/
def directionsCoordinateList (start : Coord) (waypoints : List Coord) :
    List Coord :=
  start :: (waypoints ++ [start])

/-- The `number,number` rendering of one coordinate in the request URL. -/
def coordPairText (c : Coord) : String :=
  toString c.1 ++ "," ++ toString c.2

/-- The joined `coordinates` path segment of the directions request URL
(the source's `[ ... ].join(";")`). -/
def directionsCoordinatesParam (start : Coord) (waypoints : List Coord) :
    String :=
  String.intercalate ";" ((directionsCoordinateList start waypoints).map coordPairText)

/-- The `try` body of `getDirections` (src/lib/mapbox-api.ts lines 42–54) after
the fetch resolved: non-success status throws a message carrying status,
status text and body text; a missing or empty `routes` array throws
"No routes found for the given waypoints"; otherwise the data is returned. -/
def getDirectionsTry (data : DirApiResponse) : Except String DirApiResponse :=
  if data.ok = false then
    .error ("Failed to fetch directions: " ++ toString data.status ++ " "
      ++ data.statusText ++ " - " ++ data.bodyText)
  else
    match data.routes with
    | none => .error "No routes found for the given waypoints"
    | some [] => .error "No routes found for the given waypoints"
    | some (_ :: _) => .ok data

/-- `getDirections` (src/lib/mapbox-api.ts lines 24–59) as a function of the
fetch outcome (`.error` is a transport failure with the thrown message): the
outer `catch` rewraps every failure, including the ones thrown inside the
`try`, with the prefix "Failed to fetch directions: ". -/
def getDirections (fetched : Except String DirApiResponse) :
    Except String DirApiResponse :=
  match fetched with
  | .error e => .error ("Failed to fetch directions: " ++ e)
  | .ok data =>
    match getDirectionsTry data with
    | .error e => .error ("Failed to fetch directions: " ++ e)
    | .ok d => .ok d

/-- The app's `Route` record (src/lib/types.ts lines 13–21) as assembled by
`generateRoutes`, which always sets the optional `waypoints` and
`elevationDifference` members. -/
structure Route where
  id : ℕ
  distance : ℚ
  duration : ℚ
  coordinates : List Coord
  waypoints : List Coord
  elevationDifference : ℚ
deriving DecidableEq

/-- `filterRoutesByDuration` (src/components/map-component.tsx lines 205–210):
convert the budget to seconds and keep the routes within it. -/
def filterRoutesByDuration (routes : List Route) (maxDuration : ℚ) :
    List Route :=
  let maxDurationSeconds := maxDuration * 60
  routes.filter fun route => decide (route.duration ≤ maxDurationSeconds)

/-- The selection branches of `generateRoutes`
(src/components/map-component.tsx lines 320–333): fewer than 1 survivor shows
nothing, fewer than 3 shows all survivors, otherwise the first 3. -/
def selectDisplayedRoutes (filteredRoutes : List Route) : List Route :=
  if filteredRoutes.length < 1 then []
  else if filteredRoutes.length < 3 then filteredRoutes
  else filteredRoutes.take 3

/-- `halfDuration` (src/components/map-component.tsx line 233):
`Math.max(Math.floor(walkDuration / 2), 5)`. -/
def halfDuration (walkDuration : ℚ) : ℤ :=
  max ⌊walkDuration / 2⌋ 5

/-- The pairing loop of `generateRoutes`
(src/components/map-component.tsx lines 277–282): consecutive pairs
`[points[0], points[1]], [points[2], points[3]], …`; a trailing odd point is
dropped by the `i + 1 < length` guard. -/
def pairUp : List Coord → List (List Coord)
  | a :: b :: rest => [a, b] :: pairUp rest
  | _ => []

/-- The sequential per-pair fetch loop of `generateRoutes`
(src/components/map-component.tsx lines 285–294): `dir i` is the outcome of
the `getDirections` call for the `i`-th waypoint pair; failed calls are caught
and skipped, successful responses are pushed in call order. -/
def fetchRouteResults (dir : ℕ → Except String DirApiResponse) (n : ℕ) :
    List DirApiResponse :=
  ((List.range n).map dir).filterMap Except.toOption

/-- `response.routes[0]` of a successful directions response; `getDirections`
only returns data with a non-empty `routes` array, so the default is
unreachable on such data. -/
def firstRouteOf (data : DirApiResponse) : ApiRoute :=
  (data.routes.getD []).headD ⟨0, 0, []⟩

/-- The assembly loop of `generateRoutes`
(src/components/map-component.tsx lines 297–314):
`routePromises.forEach((response, index) => …)` — note `index` enumerates the
compacted list of successful responses, and `waypoints` is looked up as
`routeWaypoints[index]` in the full pair list. -/
def assembleRoutes (routeWaypoints : List (List Coord))
    (routePromises : List DirApiResponse) : List Route :=
  routePromises.enum.map fun iresp =>
    let route := firstRouteOf iresp.2
    { id := iresp.1
      distance := route.distance
      duration := route.duration
      coordinates := route.coordinates
      waypoints := routeWaypoints.getD iresp.1 []
      elevationDifference := estimateElevationDifference route.distance }

/-- The UI session state touched by `generateRoutes`: the React state fields
(`routes`, `activeRouteIndex`, `error`, `debugInfo`, `isochroneData`,
`loading`) plus the map layers as observable state (`mapIsochroneLayers` for
the isochrone source/fill/line, `mapRouteLayers` for the `route-i`
sources/layers; `isochroneData` abstracts the stored FeatureCollection to the
`features[0].geometry` polygon `generateRoutes` consumes). -/
structure UIState where
  routes : List Route
  activeRouteIndex : String
  error : Option String
  debugInfo : Option String
  isochroneData : Option PolygonG
  mapIsochroneLayers : Bool
  mapRouteLayers : List Route
  loading : Bool
deriving DecidableEq

/-- The fatal message of the outer `catch` of `generateRoutes`
(src/components/map-component.tsx line 343). -/
def fatalMsg (e : String) : String :=
  "Failed to generate routes: " ++ e

/-- The zero-survivor message (src/components/map-component.tsx lines 321–323). -/
def noRoutesMsg (walkDuration : ℚ) : String :=
  "Could not find any routes within " ++ toString walkDuration
    ++ " minutes. Try increasing the duration or selecting a different starting point."

/-- The 1-or-2-survivor message (src/components/map-component.tsx lines 325–327). -/
def fewRoutesMsg (found : ℕ) (walkDuration : ℚ) : String :=
  "Could only find " ++ toString found ++ " routes within "
    ++ toString walkDuration ++ " minutes. Try increasing the duration."

/-- The debug banner (src/components/map-component.tsx line 236). -/
def debugMsg (hd : ℤ) (walkDuration : ℚ) : String :=
  "Using " ++ toString hd ++ " min isochrone for " ++ toString walkDuration
    ++ " min total walk"

/-- `addRoutesToMap` (src/components/map-component.tsx lines 350–405): adds a
`route-i` source and layer per route (and its two waypoint markers, a
rendering detail folded into the layer list) and stores the same list in the
`routes` state. -/
def addRoutesToMap (s : UIState) (routesToAdd : List Route) : UIState :=
  { s with mapRouteLayers := routesToAdd, routes := routesToAdd }

/-- `generateRoutes` (src/components/map-component.tsx lines 213–347) as a
state transformer.  Arguments model the effectful inputs: `iso` is the outcome
of `getIsochrone` abstracted to the `features[0].geometry` polygon it yields
(`.error` is a rejected call, the only fatal condition this model can hit,
matching the source where every awaited fallible call after the clears is the
isochrone fetch or a caught per-pair directions fetch); `dir i` is the outcome
of the `i`-th `getDirections` call; `rands`/`fuel` drive the point sampler.
The result is `none` when the sampler's unbounded loop has not terminated
within `fuel` iterations (the whole `async` function never completes).  The
state updates mirror the source order: loading/error/debug reset, routes and
active index cleared, map layers cleared, debug banner set, then the
try-block, with `loading` dropped in `finally`. -/
def generateRoutes (prev : UIState) (walkDuration : ℚ)
    (iso : Except String PolygonG)
    (dir : ℕ → Except String DirApiResponse)
    (rands : ℕ → ℚ × ℚ) (fuel : ℕ) : Option UIState :=
  let s0 : UIState :=
    { prev with
      loading := true
      error := none
      debugInfo := none
      routes := []
      activeRouteIndex := "0"
      mapIsochroneLayers := false
      mapRouteLayers := [] }
  let hd : ℤ := halfDuration walkDuration
  let s1 : UIState := { s0 with debugInfo := some (debugMsg hd walkDuration) }
  match iso with
  | .error e => some { s1 with error := some (fatalMsg e), loading := false }
  | .ok polygon =>
    let s2 : UIState :=
      { s1 with
        isochroneData := some polygon
        mapIsochroneLayers := true }
    match generateRandomPointsInPolygon polygon 12 rands fuel with
    | none => none
    | some randomPoints =>
      let routeWaypoints := pairUp randomPoints
      let routePromises := fetchRouteResults dir routeWaypoints.length
      let allRoutes := assembleRoutes routeWaypoints routePromises
      let filteredRoutes := filterRoutesByDuration allRoutes walkDuration
      if filteredRoutes.length < 1 then
        some { s2 with
          error := some (noRoutesMsg walkDuration)
          loading := false }
      else if filteredRoutes.length < 3 then
        some { addRoutesToMap s2 filteredRoutes with
          error := some (fewRoutesMsg filteredRoutes.length walkDuration)
          loading := false }
      else
        some { addRoutesToMap s2 (filteredRoutes.take 3) with loading := false }

/-! ## Concrete fixtures used by witnesses and counterexamples -/

/-- The closed unit square as a GeoJSON polygon coordinate array. -/
def unitSquare : PolygonG := [[(0, 0), (1, 0), (1, 1), (0, 1), (0, 0)]]

/-- The closed right triangle with vertices (0,0), (1,0), (0,1). -/
def trianglePoly : PolygonG := [[(0, 0), (1, 0), (0, 1), (0, 0)]]

/-- A random stream whose every draw lands in the interior of `unitSquare`. -/
def interiorRands : ℕ → ℚ × ℚ := fun _ => (1 / 2, 1 / 2)

/-- A random stream whose first draw lands on the left edge of `unitSquare`
(`Math.random()` may return 0, so the draw `lng = bbox[0] + 0 * …` is a
legitimate one). -/
def boundaryRands : ℕ → ℚ × ℚ := fun _ => (0, 1 / 2)

/-- A random stream of valid draws that always misses the triangle
`trianglePoly` inside its bounding box. -/
def missRands : ℕ → ℚ × ℚ := fun _ => (9 / 10, 9 / 10)

/-- A fresh UI session state. -/
def initState : UIState :=
  { routes := []
    activeRouteIndex := "0"
    error := none
    debugInfo := none
    isochroneData := none
    mapIsochroneLayers := false
    mapRouteLayers := []
    loading := false }

/-- A sample displayed route (20 minutes long). -/
def rsample : Route :=
  { id := 0
    distance := 2500
    duration := 1200
    coordinates := [(0, 0), (1, 1), (0, 0)]
    waypoints := [(0, 0), (1, 1)]
    elevationDifference := 25 }

/-! ## C6 — half-duration computation -/

/-- C6: for every total duration input d (in minutes), the reachability query
duration is `halfDuration = max(floor(d/2), 5)`; in particular d=30 gives 15,
d=8 gives 5, d=10 gives 5, and d=90 gives 45. -/
theorem halfDuration_spec :
    (∀ d : ℕ, halfDuration (d : ℚ) = max ((d / 2 : ℕ) : ℤ) 5) ∧
    halfDuration 30 = 15 ∧ halfDuration 8 = 5 ∧
    halfDuration 10 = 5 ∧ halfDuration 90 = 45 := by
  have key : ∀ d : ℕ, halfDuration (d : ℚ) = max ((d / 2 : ℕ) : ℤ) 5 := by
    intro d
    rw [halfDuration]
    congr 1
    exact_mod_cast Rat.floor_natCast_div_natCast d 2
  refine ⟨key, ?_, ?_, ?_, ?_⟩
  · simpa using key 30
  · simpa using key 8
  · simpa using key 10
  · simpa using key 90

/-! ## C7 — round-trip coordinate sequence -/

/-- C7: for every start coordinate and every (possibly empty) ordered list of
waypoints, the coordinate sequence submitted to the routing provider is the
start, then the waypoints in order, then the start again; in particular its
first and last elements are identical, so every requested route is a round
trip. -/
theorem round_trip_coordinate_sequence (s : Coord) (w : List Coord) :
    directionsCoordinateList s w = [s] ++ w ++ [s] ∧
    (directionsCoordinateList s w).head? = some s ∧
    (directionsCoordinateList s w).getLast? = some s := by
  refine ⟨rfl, rfl, ?_⟩
  show (s :: (w ++ [s])).getLast? = some s
  rw [show s :: (w ++ [s]) = (s :: w) ++ [s] from rfl]
  exact List.getLast?_concat _

/-! ## C10 — unit conversion round trips -/

/-- C10: for every x ≥ 0, converting kilometres to miles and back returns x
(exactly, in the exact-arithmetic model, hence within any floating tolerance),
and likewise for the metres/feet pair. -/
theorem conversion_round_trip (x : ℚ) (_hx : 0 ≤ x) :
    milesToKm (kmToMiles x) = x ∧ feetToMeters (metersToFeet x) = x := by
  constructor
  · rw [kmToMiles, milesToKm]
    exact mul_div_cancel_right₀ x (by norm_num)
  · rw [metersToFeet, feetToMeters]
    exact mul_div_cancel_right₀ x (by norm_num)

/-- Witness for C10 at x = 5. -/
theorem conversion_round_trip_witness :
    (0 : ℚ) ≤ 5 ∧ (milesToKm (kmToMiles 5) = 5 ∧ feetToMeters (metersToFeet 5) = 5) :=
  ⟨by norm_num, conversion_round_trip 5 (by norm_num)⟩

/-! ## C1 — duration filter and selector -/

/-- C1: for every list of candidate routes and every maxDurationMinutes, the
duration filter keeps only candidates with duration ≤ maxDurationMinutes*60
and preserves relative order (the survivors are a sublist of the candidates),
and the displayed set is the first 3 survivors in order — in particular at
most 3 routes. -/
theorem filter_select_spec (candidates : List Route) (maxDurationMinutes : ℚ) :
    (∀ r ∈ filterRoutesByDuration candidates maxDurationMinutes,
        r.duration ≤ maxDurationMinutes * 60) ∧
    (filterRoutesByDuration candidates maxDurationMinutes).Sublist candidates ∧
    selectDisplayedRoutes (filterRoutesByDuration candidates maxDurationMinutes)
      = (filterRoutesByDuration candidates maxDurationMinutes).take 3 ∧
    (selectDisplayedRoutes (filterRoutesByDuration candidates maxDurationMinutes)).length
      ≤ 3 := by
  have hsel : ∀ l : List Route, selectDisplayedRoutes l = l.take 3 := by
    intro l
    rw [selectDisplayedRoutes]
    split_ifs with h1 h2
    · have : l = [] := List.length_eq_zero.mp (by omega)
      simp [this]
    · exact (List.take_of_length_le (by omega)).symm
    · rfl
  refine ⟨?_, List.filter_sublist _, hsel _, ?_⟩
  · intro r hr
    have h := (List.mem_filter.mp hr).2
    simpa [filterRoutesByDuration] using of_decide_eq_true h
  · rw [hsel]
    exact List.length_take_le 3 _

/-- Witness for C1: a concrete 20-minute route survives a 30-minute budget and
its duration is certified by the theorem. -/
theorem filter_select_spec_witness : rsample.duration ≤ (30 : ℚ) * 60 :=
  (filter_select_spec [rsample] 30).1 rsample
    (by simp [filterRoutesByDuration, rsample]; norm_num)


/-! ## C8 — getDirections failure conditions -/

/-- C8: the route fetch fails exactly when the transport fails, the response
has a non-success status, or the response contains zero routes (a missing or
empty `routes` array); and on a non-success status the error message carries
the provider's status and the response body text. -/
theorem getDirections_failure_spec (fetched : Except String DirApiResponse) :
    ((getDirections fetched).isOk = true ↔
      ∃ r rs, fetched = .ok r ∧ r.ok = true ∧ r.routes = some rs ∧ rs ≠ []) ∧
    (∀ r, fetched = Except.ok r → r.ok = false →
      ∃ a b c d, getDirections fetched = .error (a ++ toString r.status ++ b) ∧
        getDirections fetched = .error (c ++ r.bodyText ++ d)) := by
  constructor
  · cases fetched with
    | error e => simp [getDirections, Except.isOk, Except.toBool]
    | ok data =>
      cases hok : data.ok with
      | false =>
        simp only [getDirections, getDirectionsTry, hok]
        simp [Except.isOk, Except.toBool, hok]
      | true =>
        cases hr : data.routes with
        | none =>
          simp only [getDirections, getDirectionsTry, hok, hr]
          simp [Except.isOk, Except.toBool, hok, hr]
        | some l =>
          cases l with
          | nil =>
            simp only [getDirections, getDirectionsTry, hok, hr]
            simp [Except.isOk, Except.toBool, hok, hr]
          | cons x xs =>
            simp only [getDirections, getDirectionsTry, hok, hr]
            simp [Except.isOk, Except.toBool, hok, hr]
  · intro r hr hok
    subst hr
    refine ⟨"Failed to fetch directions: Failed to fetch directions: ",
      " " ++ r.statusText ++ " - " ++ r.bodyText,
      "Failed to fetch directions: Failed to fetch directions: "
        ++ toString r.status ++ " " ++ r.statusText ++ " - ",
      "", ?_, ?_⟩ <;>
      simp [getDirections, getDirectionsTry, hok, ← String.append_assoc]

/-- A concrete non-success directions response. -/
def badResp : DirApiResponse :=
  { ok := false
    status := 404
    statusText := "Not Found"
    bodyText := "no segment"
    routes := none }

/-- Witness for C8 at the concrete non-success response `badResp`. -/
theorem getDirections_failure_spec_witness :
    ∃ a b c d, getDirections (.ok badResp) = .error (a ++ toString badResp.status ++ b) ∧
      getDirections (.ok badResp) = .error (c ++ badResp.bodyText ++ d) :=
  (getDirections_failure_spec (.ok badResp)).2 badResp rfl rfl

/-! ## C2 — candidates and their originating waypoint pairs -/

/-- Two generated waypoint pairs. -/
def wpsMixed : List (List Coord) := [[(0, 0), (1, 1)], [(2, 2), (3, 3)]]

/-- A successful directions response (the one returned for the second pair). -/
def okDirResp : DirApiResponse :=
  { ok := true
    status := 200
    statusText := "OK"
    bodyText := ""
    routes := some [(⟨2500, 600, [(0, 0), (2, 2), (3, 3), (0, 0)]⟩ : ApiRoute)] }

/-- Per-call outcomes: the call for pair 0 fails, the call for pair 1 succeeds. -/
def dirMixed : ℕ → Except String DirApiResponse :=
  fun i => if i = 0 then .error "Failed to fetch directions: 500 Internal Server Error - boom"
    else .ok okDirResp

/-- C2, evaluated at the failing input: the call for waypoint pair 0 fails and
is skipped, the call for pair 1 succeeds, so the single assembled candidate
originates from pair 1 (`[(2,2),(3,3)]`) — yet the source's
`routePromises.forEach((response, index) => …)` enumerates the compacted
success list, so the candidate is assembled with
`routeWaypoints[0] = [(0,0),(1,1)]`, a pair the route never visited: the
candidate does not carry the WaypointPair that originated it. -/
theorem waypoint_misalignment_on_failure :
    dirMixed 0 = .error "Failed to fetch directions: 500 Internal Server Error - boom" ∧
    dirMixed 1 = .ok okDirResp ∧
    fetchRouteResults dirMixed wpsMixed.length = [okDirResp] ∧
    (assembleRoutes wpsMixed (fetchRouteResults dirMixed wpsMixed.length)).map
      Route.waypoints = [[(0, 0), (1, 1)]] ∧
    wpsMixed.getD 1 [] = [(2, 2), (3, 3)] ∧
    ([(0, 0), (1, 1)] : List Coord) ≠ [(2, 2), (3, 3)] := by
  refine ⟨rfl, rfl, rfl, rfl, rfl, by decide⟩

/-! ## C3 — point sampler: count and containment -/

/-- Invariant of the rejection-sampling loop: starting from an accumulator not
past `count` whose members all pass the containment test, a terminating run
returns exactly `count` points, all passing the containment test. -/
theorem sampleLoop_spec (polygon : PolygonG) (bb : BBox) (count : ℕ)
    (rands : ℕ → ℚ × ℚ) :
    ∀ (fuel iter : ℕ) (acc pts : List Coord),
      acc.length ≤ count →
      (∀ p ∈ acc, booleanPointInPolygon p polygon false = true) →
      sampleLoop polygon bb count rands iter acc fuel = some pts →
      pts.length = count ∧ ∀ p ∈ pts, booleanPointInPolygon p polygon false = true := by
  intro fuel
  induction fuel with
  | zero =>
    intro iter acc pts hle hacc hrun
    rw [sampleLoop] at hrun
    split at hrun
    · cases hrun
      next h => exact ⟨le_antisymm hle h, hacc⟩
    · cases hrun
  | succ f ih =>
    intro iter acc pts hle hacc hrun
    rw [sampleLoop] at hrun
    split at hrun
    · cases hrun
      next h => exact ⟨le_antisymm hle h, hacc⟩
    · next h =>
      dsimp only at hrun
      split at hrun
      · next hin =>
        refine ih (iter + 1) _ pts ?_ ?_ hrun
        · simp
          omega
        · intro p hp
          rcases List.mem_append.mp hp with h1 | h1
          · exact hacc p h1
          · rw [List.mem_singleton.mp h1]
            exact hin
      · exact ih (iter + 1) acc pts hle hacc hrun

/-- C3 (amended): for every polygon P and count N, whenever the point sampler
terminates it returns exactly N coordinates, each of which passes the
polygon-containment test the source uses — a test that counts boundary points
as contained, so strict interiority is NOT part of the guarantee (see the
counterexample `boundary_point_sampled`). -/
theorem sample_count_and_containment (polygon : PolygonG) (count : ℕ)
    (rands : ℕ → ℚ × ℚ) (fuel : ℕ) (pts : List Coord)
    (h : generateRandomPointsInPolygon polygon count rands fuel = some pts) :
    pts.length = count ∧ ∀ p ∈ pts, booleanPointInPolygon p polygon false = true :=
  sampleLoop_spec polygon (bboxOfPolygon polygon) count rands fuel 0 [] pts
    (by simp) (by simp) h

/-- Witness for C3 (amended) on the unit square with an interior stream. -/
theorem sample_count_and_containment_witness :
    ([((1 : ℚ) / 2, (1 : ℚ) / 2), ((1 : ℚ) / 2, (1 : ℚ) / 2)] : List Coord).length = 2 ∧
    ∀ p ∈ ([((1 : ℚ) / 2, (1 : ℚ) / 2), ((1 : ℚ) / 2, (1 : ℚ) / 2)] : List Coord),
      booleanPointInPolygon p unitSquare false = true :=
  sample_count_and_containment unitSquare 2 interiorRands 2 _
    (by norm_num [generateRandomPointsInPolygon, sampleLoop, bboxOfPolygon, unitSquare,
      interiorRands, drawPoint, booleanPointInPolygon, inRing, ringEdges, inRingScan,
      onSegment, rayCrosses])

/-- Counterexample to C3 as stated: with a legitimate random stream whose
first draw is `(0, 1/2)`, the sampler terminates and returns the point
`(0, 1/2)`, which lies ON the boundary of the unit square (it is on the
segment from (0,0) to (0,1), and the containment test with boundary excluded
rejects it) — so the returned points are not all strictly inside the polygon. -/
theorem boundary_point_sampled :
    generateRandomPointsInPolygon unitSquare 1 boundaryRands 1
      = some [((0 : ℚ), (1 : ℚ) / 2)] ∧
    onSegment ((0 : ℚ), (1 : ℚ) / 2) (((0 : ℚ), (0 : ℚ)), ((0 : ℚ), (1 : ℚ))) = true ∧
    booleanPointInPolygon ((0 : ℚ), (1 : ℚ) / 2) unitSquare true = false ∧
    booleanPointInPolygon ((0 : ℚ), (1 : ℚ) / 2) unitSquare false = true := by
  refine ⟨?_, ?_, ?_, ?_⟩ <;>
    norm_num [generateRandomPointsInPolygon, sampleLoop, bboxOfPolygon, unitSquare,
      boundaryRands, drawPoint, booleanPointInPolygon, inRing, ringEdges, inRingScan,
      onSegment, rayCrosses]

/-! ## C9 — the rejection loop has no iteration bound -/

/-- C9: the rejection-sampling loop enforces no upper bound on iterations and
has no exhaustion failure mode: there is a polygon (a thin triangle inside its
bounding box) and a legitimate random stream (every draw in [0,1) × [0,1))
with count 1 for which the loop never terminates — for every amount of fuel
the run is still unfinished (`none`). -/
theorem rejection_sampling_unbounded :
    (∀ n : ℕ, 0 ≤ (missRands n).1 ∧ (missRands n).1 < 1 ∧
      0 ≤ (missRands n).2 ∧ (missRands n).2 < 1) ∧
    ∀ fuel : ℕ, generateRandomPointsInPolygon trianglePoly 1 missRands fuel = none := by
  constructor
  · intro n
    refine ⟨?_, ?_, ?_, ?_⟩ <;> norm_num [missRands]
  · have hmain : booleanPointInPolygon
        (drawPoint (bboxOfPolygon trianglePoly) (9 / 10, 9 / 10))
        trianglePoly false = false := by
      norm_num [bboxOfPolygon, trianglePoly, drawPoint, booleanPointInPolygon,
        inRing, ringEdges, inRingScan, onSegment, rayCrosses]
    have hmiss : ∀ iter : ℕ,
        booleanPointInPolygon (drawPoint (bboxOfPolygon trianglePoly) (missRands iter))
          trianglePoly false = false := fun _ => hmain
    have key : ∀ f iter,
        sampleLoop trianglePoly (bboxOfPolygon trianglePoly) 1 missRands iter [] f = none := by
      intro f
      induction f with
      | zero =>
        intro iter
        rw [sampleLoop]
        simp
      | succ f ih =>
        intro iter
        rw [sampleLoop]
        rw [if_neg (by simp)]
        dsimp only
        rw [hmiss iter]
        simp only [Bool.false_eq_true, if_false]
        exact ih (iter + 1)
    intro fuel
    exact key fuel 0

/-! ## C4 — what a fatal failure leaves behind -/

/-- A session state displaying one route from a previous successful generation. -/
def prevStateEx : UIState :=
  { initState with
    routes := [rsample]
    mapRouteLayers := [rsample]
    mapIsochroneLayers := true }

/-- Counterexample to C4 as stated: `generateRoutes` clears the route state and
all map layers BEFORE its try-block, so when the reachability call fails
fatally the displayed set is empty rather than the last-good one route the
session was showing. -/
theorem fatal_failure_loses_last_good_state :
    ∃ s', generateRoutes prevStateEx 30 (.error "Internal Server Error")
        (fun _ => .error "unused") boundaryRands 0 = some s' ∧
      s'.error = some (fatalMsg "Internal Server Error") ∧
      prevStateEx.routes = [rsample] ∧ prevStateEx.mapRouteLayers = [rsample] ∧
      s'.routes = [] ∧ s'.mapRouteLayers = [] ∧
      s'.routes ≠ prevStateEx.routes ∧ s'.mapRouteLayers ≠ prevStateEx.mapRouteLayers := by
  refine ⟨_, rfl, rfl, rfl, rfl, rfl, rfl, ?_, ?_⟩ <;> decide

/-- C4 (amended): any fatal condition yields a single human-readable error
message, but leaves the displayed route set and route layers CLEARED — the
previous routes are wiped at the start of generation, so the last-good display
is lost (no partial route layers of the new run exist either, the failure
happening before any are added). -/
theorem fatal_failure_message_and_cleared_state (prev : UIState) (wd : ℚ)
    (e : String) (dir : ℕ → Except String DirApiResponse) (rands : ℕ → ℚ × ℚ)
    (fuel : ℕ) :
    ∃ s', generateRoutes prev wd (.error e) dir rands fuel = some s' ∧
      s'.error = some (fatalMsg e) ∧ s'.routes = [] ∧ s'.mapRouteLayers = [] ∧
      s'.mapIsochroneLayers = false ∧ s'.loading = false :=
  ⟨_, rfl, rfl, rfl, rfl, rfl, rfl⟩

/-! ## C5 — per-candidate failures are isolated, reachability failure is fatal -/

/-- The compacted success list is as long as the number of successful calls:
each failed call drops exactly its own candidate. -/
theorem filterMap_toOption_length (l : List ℕ)
    (dir : ℕ → Except String DirApiResponse) :
    ((l.map dir).filterMap Except.toOption).length
      = (l.filter fun i => (dir i).isOk).length := by
  induction l with
  | nil => rfl
  | cons a t ih =>
    rw [List.map_cons, List.filterMap_cons, List.filter_cons]
    cases h : dir a with
    | error e =>
      simp only [Except.toOption, Except.isOk, Except.toBool]
      simpa using ih
    | ok v =>
      simp only [Except.toOption, Except.isOk, Except.toBool]
      simpa using ih

/-- When every routing call fails, the success list is empty. -/
theorem all_fail_fetch_empty (dir : ℕ → Except String DirApiResponse)
    (hfail : ∀ i, (dir i).isOk = false) (n : ℕ) :
    fetchRouteResults dir n = [] := by
  rw [fetchRouteResults]
  induction List.range n with
  | nil => rfl
  | cons a t ih =>
    rw [List.map_cons, List.filterMap_cons]
    cases h : dir a with
    | error e =>
      simpa [Except.toOption] using ih
    | ok v =>
      have hf := hfail a
      rw [h] at hf
      simp [Except.isOk, Except.toBool] at hf

/-- Any per-pair outcomes leave `generateRoutes` completing normally, its
displayed routes computed from the surviving successes. -/
theorem generateRoutes_ok_shape (prev : UIState) (wd : ℚ) (poly : PolygonG)
    (rands : ℕ → ℚ × ℚ) (fuel : ℕ) (pts : List Coord)
    (hpts : generateRandomPointsInPolygon poly 12 rands fuel = some pts)
    (dir : ℕ → Except String DirApiResponse) :
    ∃ s', generateRoutes prev wd (.ok poly) dir rands fuel = some s' ∧
      s'.mapIsochroneLayers = true ∧
      s'.routes = selectDisplayedRoutes (filterRoutesByDuration
        (assembleRoutes (pairUp pts) (fetchRouteResults dir (pairUp pts).length)) wd) ∧
      (fetchRouteResults dir (pairUp pts).length).length
        = ((List.range (pairUp pts).length).filter (fun i => (dir i).isOk)).length := by
  simp only [generateRoutes]
  rw [hpts]
  dsimp only
  split_ifs with h1 h2
  · refine ⟨_, rfl, rfl, ?_, filterMap_toOption_length _ _⟩
    rw [selectDisplayedRoutes, if_pos h1]
  · refine ⟨_, rfl, rfl, ?_, filterMap_toOption_length _ _⟩
    rw [selectDisplayedRoutes, if_neg h1, if_pos h2]
    rfl
  · refine ⟨_, rfl, rfl, ?_, filterMap_toOption_length _ _⟩
    rw [selectDisplayedRoutes, if_neg h1, if_neg h2]
    rfl

/-- When every routing call fails, generation completes non-fatally with an
empty route list and the no-results message, the isochrone still displayed. -/
theorem generateRoutes_ok_allFail (prev : UIState) (wd : ℚ) (poly : PolygonG)
    (rands : ℕ → ℚ × ℚ) (fuel : ℕ) (pts : List Coord)
    (hpts : generateRandomPointsInPolygon poly 12 rands fuel = some pts)
    (dir : ℕ → Except String DirApiResponse)
    (hfail : ∀ i, (dir i).isOk = false) :
    ∃ s', generateRoutes prev wd (.ok poly) dir rands fuel = some s' ∧
      s'.routes = [] ∧ s'.error = some (noRoutesMsg wd) ∧
      s'.mapIsochroneLayers = true := by
  simp only [generateRoutes]
  rw [hpts]
  dsimp only
  rw [all_fail_fetch_empty dir hfail]
  rw [if_pos (by simp [assembleRoutes, filterRoutesByDuration])]
  exact ⟨_, rfl, rfl, rfl, rfl⟩

/-- C5: an individual routing-request failure only skips its own pair and
generation continues (the run completes, the success list shrinks by exactly
the failed calls, and the displayed set is computed from the survivors); when
every routing call fails the run still completes with an empty route list and
the no-results message (non-fatal: the isochrone layers stay up); only a
failure of the reachability call itself is fatal, aborting generation with the
fatal message before any sampling or routing happens. -/
theorem routing_failure_isolation (prev : UIState) (wd : ℚ) (poly : PolygonG)
    (rands : ℕ → ℚ × ℚ) (fuel : ℕ) (pts : List Coord)
    (hpts : generateRandomPointsInPolygon poly 12 rands fuel = some pts) :
    (∀ dir : ℕ → Except String DirApiResponse,
      ∃ s', generateRoutes prev wd (.ok poly) dir rands fuel = some s' ∧
        s'.mapIsochroneLayers = true ∧
        s'.routes = selectDisplayedRoutes (filterRoutesByDuration
          (assembleRoutes (pairUp pts) (fetchRouteResults dir (pairUp pts).length)) wd) ∧
        (fetchRouteResults dir (pairUp pts).length).length
          = ((List.range (pairUp pts).length).filter (fun i => (dir i).isOk)).length) ∧
    (∀ dir : ℕ → Except String DirApiResponse, (∀ i, (dir i).isOk = false) →
      ∃ s', generateRoutes prev wd (.ok poly) dir rands fuel = some s' ∧
        s'.routes = [] ∧ s'.error = some (noRoutesMsg wd) ∧
        s'.mapIsochroneLayers = true) ∧
    (∀ (e : String) (dir : ℕ → Except String DirApiResponse),
      ∃ s', generateRoutes prev wd (.error e) dir rands fuel = some s' ∧
        s'.error = some (fatalMsg e) ∧ s'.mapIsochroneLayers = false ∧
        s'.routes = []) :=
  ⟨fun dir => generateRoutes_ok_shape prev wd poly rands fuel pts hpts dir,
   fun dir hfail => generateRoutes_ok_allFail prev wd poly rands fuel pts hpts dir hfail,
   fun _e _dir => ⟨_, rfl, rfl, rfl, rfl⟩⟩

/-- The twelve sampled points of the witness run. -/
def twelveMid : List Coord :=
  List.replicate 12 ((1 : ℚ) / 2, (1 : ℚ) / 2)

/-- Witness for C5: a concrete run on the unit square whose 6 routing calls
all fail, ending non-fatally with no routes and the no-results message. -/
theorem routing_failure_isolation_witness :
    ∃ s', generateRoutes initState 30 (.ok unitSquare)
        (fun _ => .error "provider down") interiorRands 12 = some s' ∧
      s'.routes = [] ∧ s'.error = some (noRoutesMsg 30) ∧
      s'.mapIsochroneLayers = true :=
  (routing_failure_isolation initState 30 unitSquare interiorRands 12 twelveMid
    (by norm_num [generateRandomPointsInPolygon, sampleLoop, bboxOfPolygon, unitSquare,
      interiorRands, drawPoint, booleanPointInPolygon, inRing, ringEdges, inRingScan,
      onSegment, rayCrosses, twelveMid, List.replicate])).2.1
    (fun _ => .error "provider down") (fun _ => rfl)
